import Mathlib

/-!
Verification development for the Kathara lab.conf → SVG converter
(`v2_kathara_to_svg.py`).  The Python program is shallowly embedded:

* `Node`, `Conn`, `ParserState` mirror the classes `Node`, `Connection`
  and `KatharaParser` (nodes and connections are kept in insertion-ordered
  association lists, reproducing Python dict semantics; connection
  membership refers to nodes by name, reproducing the object aliasing of
  the original, since node names are unique dictionary keys).
* machine floats are embedded as real numbers; the textual rendering of a
  float in an f-string is abstracted as an arbitrary function
  `fstr : ℝ → String`, because no verified claim depends on the decimal
  digits of a coordinate.
* Python exceptions are embedded as `Option`/`none` results.
-/

/-- One character of a Python `\w` class (ASCII fragment, which covers all
inputs exercised here): letters, digits, or underscore. -/
def isWordChar (c : Char) : Bool :=
  c.isAlphanum || c == '_'

/-- `charsPrefixOf p s` holds when the character list `p` is a prefix of `s`. -/
def charsPrefixOf : List Char → List Char → Bool
  | [], _ => true
  | _ :: _, [] => false
  | p :: ps, c :: cs => p == c && charsPrefixOf ps cs

/-- `charsContains pat s`: the character list `pat` occurs contiguously in `s`
(Python's `pat in s`; the empty pattern occurs everywhere). -/
def charsContains (pat : List Char) : List Char → Bool
  | [] => pat.isEmpty
  | c :: cs => charsPrefixOf pat (c :: cs) || charsContains pat cs

/-- Python's substring test `pat in s` on strings. -/
def strContainsB (s pat : String) : Bool :=
  charsContains pat.toList s.toList

/-- Python's `any(keyword in s for keyword in kws)`. -/
def containsAny (s : String) (kws : List String) : Bool :=
  kws.any (fun kw => strContainsB s kw)

/-- `pat` is a literal prefix of `s` (Python's `s.startswith(pat)`). -/
def startsWithStr (s pat : String) : Bool :=
  charsPrefixOf pat.toList s.toList

/-- Python's `s.strip()`: remove leading and trailing whitespace. -/
def stripWs (s : String) : String :=
  (((s.toList.dropWhile Char.isWhitespace).reverse.dropWhile
      Char.isWhitespace).reverse).asString

/-- Python's `s.lower()` (ASCII fragment). -/
def lowerStr (s : String) : String :=
  (s.toList.map Char.toLower).asString

/-- Python's `s.upper()` (ASCII fragment). -/
def upperStr (s : String) : String :=
  (s.toList.map Char.toUpper).asString

/-- Python's `s.strip(QUOTE)`: remove every leading and trailing `"` character. -/
def stripQuoteChars (s : String) : String :=
  (((s.toList.dropWhile (fun c => c == '"')).reverse.dropWhile
      (fun c => c == '"')).reverse).asString

/-- Python's `line.split(EQ, 1)` when used as `key, value = ...`: splits at the
first `=`; `none` models the `ValueError` raised when no `=` is present. -/
def splitOnceEq (s : String) : Option (String × String) :=
  let cs := s.toList
  if cs.any (fun c => c == '=') then
    some ((cs.takeWhile (fun c => !(c == '='))).asString,
          ((cs.dropWhile (fun c => !(c == '='))).tail).asString)
  else
    none

/-- The occurrence relation used in theorem statements: `pat` occurs
contiguously inside `s`. -/
def containsStr (s pat : String) : Prop :=
  ∃ a b : String, s = a ++ (pat ++ b)

/-- A network node: embedding of the Python class `Node`.  `interfaces` and
`props` are insertion-ordered association lists (Python dicts). -/
structure Node where
  name : String
  image : String
  interfaces : List (String × String)
  props : List (String × String)
  x : ℝ
  y : ℝ
  nodeType : String

/-- `Node.__init__`: fresh node with empty image, no interfaces or
properties, position `(0, 0)` and type `"unknown"`. -/
noncomputable def mkNode (n : String) : Node :=
  { name := n, image := "", interfaces := [], props := [],
    x := 0, y := 0, nodeType := "unknown" }

/-- A collision domain: embedding of the Python class `Connection`.
`members` is the ordered list of `(node name, interface)` pairs. -/
structure Conn where
  domain : String
  members : List (String × String)
  connType : String
  deriving DecidableEq

/-- Embedding of the Python class `KatharaParser`'s state: `lab_info`,
`nodes` and `connections`, all insertion-ordered. -/
structure ParserState where
  labInfo : List (String × String)
  nodes : List Node
  conns : List Conn

/-- The parser's initial state. -/
def initState : ParserState :=
  { labInfo := [], nodes := [], conns := [] }

/-- Python dict assignment `d[k] = v`: update the first binding of `k` in
place, or append a new binding at the end. -/
def dictInsert {α : Type} (k : String) (v : α) :
    List (String × α) → List (String × α)
  | [] => [(k, v)]
  | (k0, v0) :: rest =>
    if k0 = k then (k0, v) :: rest else (k0, v0) :: dictInsert k v rest

/-- Python dict lookup `d.get(k)`. -/
def dictGet {α : Type} (k : String) : List (String × α) → Option α
  | [] => none
  | (k0, v0) :: rest => if k0 = k then some v0 else dictGet k rest

/-- `if node_name not in self.nodes: self.nodes[node_name] = Node(node_name)`. -/
noncomputable def ensureNode : List Node → String → List Node
  | [], n => [mkNode n]
  | nd :: rest, n =>
    if nd.name = n then nd :: rest else nd :: ensureNode rest n

/-- Mutation of the node registered under a name (Python mutates the shared
`Node` object; here the unique entry of the list is rewritten). -/
def updateNode (f : Node → Node) : List Node → String → List Node
  | [], _ => []
  | nd :: rest, n =>
    if nd.name = n then f nd :: rest else nd :: updateNode f rest n

/-- `KatharaParser._add_connection`: get-or-create the collision domain's
`Connection` (fresh ones have type `"lan"`), then `Connection.add_node`
appends the `(node, interface)` pair unconditionally. -/
def addConnection (domain nodeName iface : String) : List Conn → List Conn
  | [] => [{ domain := domain, members := [(nodeName, iface)], connType := "lan" }]
  | c :: rest =>
    if c.domain = domain then
      { c with members := c.members ++ [(nodeName, iface)] } :: rest
    else
      c :: addConnection domain nodeName iface rest

/-- `Node.classify_node` as a pure function of name and image
(the source's first branch contains an inner image test whose two arms both
assign `"router"`, collapsed here). -/
def classifyNodeType (name image : String) : String :=
  let nameLower := lowerStr name
  let imageLower := lowerStr image
  if containsAny nameLower ["router", "r1", "r2", "r3", "r4", "r5"] then
    "router"
  else if containsAny nameLower ["pc", "host", "client"] then
    "pc"
  else if containsAny nameLower ["server", "snmp", "manager", "zabbix"] then
    "server"
  else if containsAny nameLower ["switch", "sw"] then
    "switch"
  else if containsAny imageLower ["frr", "quagga", "bird", "router"] then
    "router"
  else if containsAny imageLower ["alpine", "ubuntu", "debian"] then
    "pc"
  else if containsAny imageLower ["server", "zabbix"] then
    "server"
  else
    "pc"

/-- `Node.classify_node`: store the classified type on the node. -/
def classifyNode (nd : Node) : Node :=
  { nd with nodeType := classifyNodeType nd.name nd.image }

/-- Look a node up by name (Python member objects are shared references;
names are unique dict keys). -/
def findNode (nodes : List Node) (nm : String) : Option Node :=
  nodes.find? (fun nd => nd.name == nm)

/-- Whether a membership entry refers to a router-typed node
(`node.node_type == "router"` on the member object). -/
def isRouterMember (nodes : List Node) (m : String × String) : Bool :=
  match findNode nodes m.1 with
  | some nd => nd.nodeType == "router"
  | none => false

/-- Number of router-typed entries of a membership list (the length of the
source's `router_nodes` comprehension, duplicates counted). -/
def routerMemberCount (nodes : List Node) (ms : List (String × String)) : ℕ :=
  (ms.filter (fun m => isRouterMember nodes m)).length

/-- `Connection.classify_connection`: 2 members → `"p2p"`; more than 2 →
`"ring"` when exactly 2 member entries are router-typed, else `"lan"`;
fewer than 2 → the stored type is left unchanged. -/
def classifyConnection (nodes : List Node) (c : Conn) : Conn :=
  if c.members.length = 2 then
    { c with connType := "p2p" }
  else if 2 < c.members.length then
    if routerMemberCount nodes c.members = 2 then
      { c with connType := "ring" }
    else
      { c with connType := "lan" }
  else
    c

/-- `KatharaParser._classify_nodes_and_connections`: classify every node,
then every connection (connections see the freshly written node types
through the shared node objects). -/
def classifyGraph (st : ParserState) : ParserState :=
  let ns := st.nodes.map classifyNode
  { st with nodes := ns, conns := st.conns.map (classifyConnection ns) }

/-- The node-line pattern of `_parse_line`:
`re.match` of a word-character run, `[`, a nonempty `]`-free property name,
`]=`, an optional quote, then a quote-free value (trailing text ignored —
the pattern is unanchored at the right). -/
def matchNodeLine (line : String) : Option (String × String × String) :=
  let cs := line.toList
  let name := cs.takeWhile isWordChar
  let rest := cs.dropWhile isWordChar
  if name.isEmpty then none
  else
    match rest with
    | '[' :: r2 =>
      let prop := r2.takeWhile (fun c => !(c == ']'))
      let r3 := r2.dropWhile (fun c => !(c == ']'))
      if prop.isEmpty then none
      else
        match r3 with
        | ']' :: '=' :: r4 =>
          let r5 := match r4 with
            | '"' :: t => t
            | _ => r4
          some (name.asString, prop.asString,
                (r5.takeWhile (fun c => !(c == '"'))).asString)
        | _ => none
    | _ => none

/-- Python's `s.isdigit()` (ASCII fragment). -/
def isDigits (s : String) : Bool :=
  !(s.toList.isEmpty) && s.toList.all (fun c => c.isDigit)

/-- The node-property branch of `_parse_line`: create the node on first
reference, then dispatch on the property name (`image` / all-digits
interface index / anything else). -/
noncomputable def applyNodeProp (st : ParserState)
    (n p v : String) : ParserState :=
  let nodes1 := ensureNode st.nodes n
  if p = "image" then
    { st with nodes := updateNode (fun nd => { nd with image := v }) nodes1 n }
  else if isDigits p then
    { st with
      nodes := updateNode
        (fun nd => { nd with interfaces := dictInsert p v nd.interfaces }) nodes1 n,
      conns := addConnection v n p st.conns }
  else
    { st with
      nodes := updateNode
        (fun nd => { nd with props := dictInsert p v nd.props }) nodes1 n }

/-- `KatharaParser._parse_line` on an already-stripped line.  `none` models
an uncaught exception: the `LAB_` branch unpacks `line.split('=', 1)` into
two variables, which raises `ValueError` when the line has no `=`.
Every other line either matches the node pattern or is silently ignored. -/
noncomputable def parseLine (st : ParserState) (line : String) :
    Option ParserState :=
  if startsWithStr line "LAB_" then
    match splitOnceEq line with
    | none => none
    | some (k, v) =>
      some { st with labInfo := dictInsert k (stripQuoteChars v) st.labInfo }
  else
    match matchNodeLine line with
    | none => some st
    | some (n, p, v) => some (applyNodeProp st n p v)

/-- The line loop of `KatharaParser.parse`: strip each line, skip blanks and
`#` comments, feed the rest to `_parse_line` (a raised exception aborts). -/
noncomputable def parseLines (st : ParserState) :
    List String → Option ParserState
  | [] => some st
  | l :: ls =>
    let t := stripWs l
    if t = "" || startsWithStr t "#" then parseLines st ls
    else
      match parseLine st t with
      | none => none
      | some st2 => parseLines st2 ls

/-- `KatharaParser.parse` on the file's lines: parse every line, then run
the classification pass once. -/
noncomputable def parseFile (lines : List String) : Option ParserState :=
  (parseLines initState lines).map classifyGraph

/-- The router-typed nodes of the graph, in iteration order
(`SVGGenerator._layout_nodes`'s `routers` comprehension). -/
def routersOf (nodes : List Node) : List Node :=
  nodes.filter (fun nd => nd.nodeType == "router")

/-- The non-router nodes, in iteration order (`other_nodes`). -/
def othersOf (nodes : List Node) : List Node :=
  nodes.filter (fun nd => !(nd.nodeType == "router"))

/-- The `ring_connections` counter of `_has_ring_topology`: how many
connections have exactly 2 router-typed membership entries. -/
def ringPairConnCount (nodes : List Node) (conns : List Conn) : ℕ :=
  (conns.filter (fun c => routerMemberCount nodes c.members == 2)).length

/-- `SVGGenerator._has_ring_topology`: false for fewer than 3 routers,
otherwise true when the router-pair connection count reaches the router
count. -/
def hasRingTopology (routers nodes : List Node) (conns : List Conn) : Bool :=
  if routers.length < 3 then false
  else decide (routers.length ≤ ringPairConnCount nodes conns)

/-- Python's `enumerate` fused with a map: applies `f i a` with the running
index (used for the in-place position-assignment loops). -/
def enumMap {α β : Type} (f : ℕ → α → β) : ℕ → List α → List β
  | _, [] => []
  | i, a :: rest => f i a :: enumMap f (i + 1) rest

/-- `SVGGenerator._find_connected_router`: scan connections in iteration
order; in the first connection containing this node, return the first
router (in router-list order) also contained in it, else keep scanning. -/
def findConnectedRouter (nodeName : String) (routers : List Node) :
    List Conn → Option Node
  | [] => none
  | c :: rest =>
    if c.members.any (fun m => m.1 == nodeName) then
      match routers.find? (fun r => c.members.any (fun m => m.1 == r.name)) with
      | some r => some r
      | none => findConnectedRouter nodeName routers rest
    else
      findConnectedRouter nodeName routers rest

/-- The non-router half of `_layout_ring_topology`: each non-router node is
placed relative to its connected router (normalize the center→router vector
and extend 100 units past the router; a router located exactly at the
center gets the node 100 units above instead), with a staggered fallback
when no connected router exists. -/
noncomputable def layoutRingOthers (cx cy : ℝ) (rs : List Node)
    (conns : List Conn) (others : List Node) : List Node :=
  enumMap (fun k nd =>
    match findConnectedRouter nd.name rs conns with
    | some r =>
      let dx := r.x - cx
      let dy := r.y - cy
      let len := Real.sqrt (dx * dx + dy * dy)
      if 0 < len then
        { nd with x := r.x + dx / len * 100, y := r.y + dy / len * 100 }
      else
        { nd with x := r.x, y := r.y - 100 }
    | none =>
      { nd with x := cx + ((others.length : ℝ) - (k : ℝ)) * 50,
                y := cy + 200 }) 0 others

/-- `SVGGenerator._layout_ring_topology`: routers are placed evenly on a
circle of radius `0.25 * min(width, height)` around the canvas center,
starting at angle `-π/2`; then the non-router nodes are placed around the
already-positioned routers. -/
noncomputable def layoutRingTopology (w h : ℤ) (routers others : List Node)
    (conns : List Conn) : List Node × List Node :=
  let cx := (w : ℝ) / 2
  let cy := (h : ℝ) / 2
  let rad := ((min w h : ℤ) : ℝ) * 0.25
  let n := routers.length
  let rs := enumMap (fun i r =>
    { r with
      x := cx + rad * Real.cos (2 * Real.pi * (i : ℝ) / (n : ℝ) - Real.pi / 2),
      y := cy + rad * Real.sin (2 * Real.pi * (i : ℝ) / (n : ℝ) - Real.pi / 2) })
    0 routers
  (rs, layoutRingOthers cx cy rs conns others)

/-- Exact value of `math.ceil(math.sqrt(n))` for a natural number `n`. -/
def ceilSqrt (n : ℕ) : ℕ :=
  if Nat.sqrt n * Nat.sqrt n = n then Nat.sqrt n else Nat.sqrt n + 1

/-- The grid-placement loop of `_layout_hierarchical`.  `none` models the
`ZeroDivisionError` of `i // cols` when `cols = 0` and the loop body runs. -/
noncomputable def layoutHierAux (w h margin : ℤ) (cols total : ℕ) :
    ℕ → List Node → Option (List Node)
  | _, [] => some []
  | i, nd :: rest =>
    if cols = 0 then none
    else
      let row := i / cols
      let col := i % cols
      let rows := Nat.ceil ((total : ℚ) / (cols : ℚ))
      let x := (margin : ℝ) + ((w : ℝ) - 2 * margin) * ((col : ℝ) + 0.5) / (cols : ℝ)
      let y := (margin : ℝ) + 100 +
        ((h : ℝ) - 2 * margin - 200) * ((row : ℝ) + 0.5) / (rows : ℝ)
      match layoutHierAux w h margin cols total (i + 1) rest with
      | none => none
      | some rest2 => some ({ nd with x := x, y := y } :: rest2)

/-- `SVGGenerator._layout_hierarchical`: concatenate routers and the other
nodes, pick `ceil(sqrt(count))` columns, and place the nodes on a grid. -/
noncomputable def layoutHierarchical (w h margin : ℤ)
    (routers others : List Node) : Option (List Node) :=
  let all := routers ++ others
  layoutHierAux w h margin (ceilSqrt all.length) all.length 0 all

/-- Write the freshly computed positions back into the parser's node list
(Python mutates the shared `Node` objects in place; node names are unique). -/
def mergeByName (orig updated : List Node) : List Node :=
  orig.map (fun nd => (updated.find? (fun u => u.name == nd.name)).getD nd)

/-- `SVGGenerator._layout_nodes`: split the nodes into routers and others
and dispatch on ring-topology detection. -/
noncomputable def layoutNodes (w h margin : ℤ) (nodes : List Node)
    (conns : List Conn) : Option (List Node) :=
  let routers := routersOf nodes
  let others := othersOf nodes
  if hasRingTopology routers nodes conns then
    let rp := layoutRingTopology w h routers others conns
    some (mergeByName nodes (rp.1 ++ rp.2))
  else
    (layoutHierarchical w h margin routers others).map (mergeByName nodes)

/-- Looks up a connection member's node object (always present in states
produced by the parser; a zero node is the formal fallback). -/
noncomputable def memberNode (ns : List Node) (m : String × String) : Node :=
  (findNode ns m.1).getD (mkNode m.1)

/-- `SVGGenerator._get_connection_color`. -/
def getConnectionColor (c : Conn) : String :=
  if c.connType == "ring" then "#2196F3"
  else if c.connType == "p2p" then "#4CAF50"
  else "#FF5722"

/-- `SVGGenerator._get_connection_style`: dashed when any member is a PC. -/
noncomputable def getConnectionStyle (ns : List Node) (c : Conn) : String :=
  if c.members.any (fun m => (memberNode ns m).nodeType == "pc") then
    "stroke-dasharray=\"5,5\""
  else ""

/-- `SVGGenerator._create_svg_header`. -/
def createSvgHeader (w h : ℤ) : String :=
  "<?xml version=\"1.0\" encoding=\"UTF-8\"?>\n<svg viewBox=\"0 0 " ++ toString w
    ++ " " ++ toString h
    ++ "\" xmlns=\"http://www.w3.org/2000/svg\">\n  <!-- Background -->\n  <rect width=\""
    ++ toString w ++ "\" height=\"" ++ toString h ++ "\" fill=\"#f8f9fa\"/>\n"

/-- `SVGGenerator._create_svg_footer`. -/
def createSvgFooter : String := "</svg>"

/-- `SVGGenerator._create_title`: lab name and description from the lab
info, with fixed placeholder defaults (`fstr` renders the float `w/2`). -/
noncomputable def createTitle (fstr : ℝ → String) (w : ℤ) (info : List (String × String)) :
    String :=
  let labName := (dictGet "LAB_NAME" info).getD "Kathara Network"
  let labDesc := (dictGet "LAB_DESCRIPTION" info).getD "Network Topology"
  "\n  <!-- Title -->\n  <text x=\"" ++ fstr ((w : ℝ) / 2)
    ++ "\" y=\"30\" text-anchor=\"middle\" font-family=\"Arial, sans-serif\" font-size=\"20\" font-weight=\"bold\" fill=\"black\">\n    "
    ++ labName
    ++ "\n  </text>\n  <text x=\"" ++ fstr ((w : ℝ) / 2)
    ++ "\" y=\"50\" text-anchor=\"middle\" font-family=\"Arial, sans-serif\" font-size=\"14\" fill=\"black\">\n    "
    ++ labDesc
    ++ "\n  </text>\n"

/-- The per-connection drawing step of `_draw_connections`: a labeled line
for 2-member connections, a hub with spokes for larger ones, nothing for
fewer than 2 members. -/
noncomputable def renderConnection (fstr : ℝ → String) (ns : List Node)
    (c : Conn) : String :=
  if c.members.length = 2 then
    let n1 := memberNode ns (c.members.getD 0 ("", ""))
    let n2 := memberNode ns (c.members.getD 1 ("", ""))
    "  <line x1=\"" ++ fstr n1.x ++ "\" y1=\"" ++ fstr n1.y
      ++ "\" x2=\"" ++ fstr n2.x ++ "\" y2=\"" ++ fstr n2.y
      ++ "\" \n                stroke=\"" ++ getConnectionColor c
      ++ "\" stroke-width=\"2\" " ++ getConnectionStyle ns c
      ++ "/>\n  <text x=\"" ++ fstr ((n1.x + n2.x) / 2)
      ++ "\" y=\"" ++ fstr ((n1.y + n2.y) / 2 - 5)
      ++ "\" \n        text-anchor=\"middle\" font-family=\"Arial, sans-serif\" font-size=\"10\" fill=\"black\">\n    "
      ++ c.domain ++ "\n  </text>\n"
  else if 2 < c.members.length then
    let cx := ((c.members.map (fun m => (memberNode ns m).x)).sum) / (c.members.length : ℝ)
    let cy := ((c.members.map (fun m => (memberNode ns m).y)).sum) / (c.members.length : ℝ)
    "  <circle cx=\"" ++ fstr cx ++ "\" cy=\"" ++ fstr cy
      ++ "\" r=\"8\" fill=\"#FFC107\" stroke=\"#F57C00\" stroke-width=\"2\"/>\n"
      ++ (c.members.foldl (fun acc m =>
            acc ++ "  <line x1=\"" ++ fstr (memberNode ns m).x
              ++ "\" y1=\"" ++ fstr (memberNode ns m).y
              ++ "\" x2=\"" ++ fstr cx ++ "\" y2=\"" ++ fstr cy
              ++ "\" stroke=\"" ++ getConnectionColor c
              ++ "\" stroke-width=\"2\"/>\n") "")
      ++ "  <text x=\"" ++ fstr cx ++ "\" y=\"" ++ fstr (cy - 15)
      ++ "\" text-anchor=\"middle\" \n        font-family=\"Arial, sans-serif\" font-size=\"10\" fill=\"black\">\n    "
      ++ c.domain ++ "\n  </text>\n"
  else ""

/-- `SVGGenerator._draw_connections`. -/
noncomputable def drawConnections (fstr : ℝ → String) (ns : List Node)
    (conns : List Conn) : String :=
  conns.foldl (fun acc c => acc ++ renderConnection fstr ns c)
    "\n  <!-- Connections -->\n"

/-- `SVGGenerator._draw_router`. -/
noncomputable def drawRouter (fstr : ℝ → String) (nd : Node) : String :=
  "  <!-- " ++ nd.name ++ " -->\n  <circle cx=\"" ++ fstr nd.x
    ++ "\" cy=\"" ++ fstr nd.y
    ++ "\" r=\"25\" fill=\"#FF9800\" stroke=\"#E65100\" stroke-width=\"2\"/>\n  <text x=\""
    ++ fstr nd.x ++ "\" y=\"" ++ fstr (nd.y + 5)
    ++ "\" text-anchor=\"middle\" font-family=\"Arial, sans-serif\" \n        font-size=\"11\" font-weight=\"bold\" fill=\"black\">\n    "
    ++ upperStr nd.name
    ++ "\n  </text>\n  <text x=\"" ++ fstr nd.x ++ "\" y=\"" ++ fstr (nd.y + 35)
    ++ "\" text-anchor=\"middle\" font-family=\"Arial, sans-serif\" \n        font-size=\"9\" fill=\"black\">\n    Router\n  </text>\n"

/-- `SVGGenerator._draw_pc`. -/
noncomputable def drawPc (fstr : ℝ → String) (nd : Node) : String :=
  "  <!-- " ++ nd.name ++ " -->\n  <rect x=\"" ++ fstr (nd.x - 25)
    ++ "\" y=\"" ++ fstr (nd.y - 12)
    ++ "\" width=\"50\" height=\"24\" rx=\"3\" \n        fill=\"#607D8B\" stroke=\"#37474F\" stroke-width=\"2\"/>\n  <text x=\""
    ++ fstr nd.x ++ "\" y=\"" ++ fstr (nd.y + 3)
    ++ "\" text-anchor=\"middle\" font-family=\"Arial, sans-serif\" \n        font-size=\"10\" font-weight=\"bold\" fill=\"black\">\n    "
    ++ upperStr nd.name
    ++ "\n  </text>\n  <text x=\"" ++ fstr nd.x ++ "\" y=\"" ++ fstr (nd.y + 35)
    ++ "\" text-anchor=\"middle\" font-family=\"Arial, sans-serif\" \n        font-size=\"9\" fill=\"black\">\n    PC\n  </text>\n"

/-- `SVGGenerator._draw_server`, with the `\" (Bridged)\"` caption suffix
when the node carries a `bridged` property. -/
noncomputable def drawServer (fstr : ℝ → String) (nd : Node) : String :=
  let bridgedInfo := if nd.props.any (fun p => p.1 == "bridged")
    then " (Bridged)" else ""
  "  <!-- " ++ nd.name ++ " -->\n  <rect x=\"" ++ fstr (nd.x - 30)
    ++ "\" y=\"" ++ fstr (nd.y - 15)
    ++ "\" width=\"60\" height=\"30\" rx=\"3\" \n        fill=\"#9C27B0\" stroke=\"#6A1B9A\" stroke-width=\"2\"/>\n  <text x=\""
    ++ fstr nd.x ++ "\" y=\"" ++ fstr (nd.y + 3)
    ++ "\" text-anchor=\"middle\" font-family=\"Arial, sans-serif\" \n        font-size=\"9\" font-weight=\"bold\" fill=\"black\">\n    "
    ++ upperStr nd.name
    ++ "\n  </text>\n  <text x=\"" ++ fstr nd.x ++ "\" y=\"" ++ fstr (nd.y + 35)
    ++ "\" text-anchor=\"middle\" font-family=\"Arial, sans-serif\" \n        font-size=\"8\" fill=\"black\">\n    Server"
    ++ bridgedInfo
    ++ "\n  </text>\n"

/-- `SVGGenerator._draw_single_node`: dispatch on the node type; every type
other than router and server renders with the PC visual. -/
noncomputable def drawSingleNode (fstr : ℝ → String) (nd : Node) : String :=
  if nd.nodeType == "router" then drawRouter fstr nd
  else if nd.nodeType == "server" then drawServer fstr nd
  else drawPc fstr nd

/-- `SVGGenerator._draw_nodes`. -/
noncomputable def drawNodes (fstr : ℝ → String) (ns : List Node) : String :=
  ns.foldl (fun acc nd => acc ++ drawSingleNode fstr nd) "\n  <!-- Nodes -->\n"

/-- `SVGGenerator._create_legend`: a fixed block at `(50, height - 200)`. -/
def createLegend (h : ℤ) : String :=
  let legendX : ℤ := 50
  let legendY : ℤ := h - 200
  "\n  <!-- Legend -->\n  <g transform=\"translate(" ++ toString legendX
    ++ ", " ++ toString legendY
    ++ ")\">\n    <text x=\"0\" y=\"0\" font-family=\"Arial, sans-serif\" font-size=\"16\" font-weight=\"bold\" fill=\"black\">"
    ++ "Legend:"
    ++ "</text>\n    \n    <!-- Router legend -->\n    <circle cx=\"15\" cy=\"25\" r=\"12\" fill=\"#FF9800\" stroke=\"#E65100\" stroke-width=\"1\"/>\n    <text x=\"35\" y=\"30\" font-family=\"Arial, sans-serif\" font-size=\"12\" fill=\"black\">Router</text>\n    \n    <!-- PC legend -->\n    <rect x=\"5\" y=\"40\" width=\"20\" height=\"12\" rx=\"2\" fill=\"#607D8B\" stroke=\"#37474F\" stroke-width=\"1\"/>\n    <text x=\"35\" y=\"49\" font-family=\"Arial, sans-serif\" font-size=\"12\" fill=\"black\">PC/Host</text>\n    \n    <!-- Server legend -->\n    <rect x=\"5\" y=\"60\" width=\"20\" height=\"12\" rx=\"2\" fill=\"#9C27B0\" stroke=\"#6A1B9A\" stroke-width=\"1\"/>\n    <text x=\"35\" y=\"69\" font-family=\"Arial, sans-serif\" font-size=\"12\" fill=\"black\">Server</text>\n    \n    <!-- Ring connection legend -->\n    <line x1=\"10\" y1=\"85\" x2=\"30\" y2=\"85\" stroke=\"#2196F3\" stroke-width=\"2\"/>\n    <text x=\"35\" y=\"89\" font-family=\"Arial, sans-serif\" font-size=\"12\" fill=\"black\">Ring Connection</text>\n    \n    <!-- P2P connection legend -->\n    <line x1=\"10\" y1=\"105\" x2=\"30\" y2=\"105\" stroke=\"#4CAF50\" stroke-width=\"2\" stroke-dasharray=\"3,3\"/>\n    <text x=\"35\" y=\"109\" font-family=\"Arial, sans-serif\" font-size=\"12\" fill=\"black\">LAN Connection</text>\n    \n    <!-- Hub legend -->\n    <circle cx=\"15\" cy=\"125\" r=\"4\" fill=\"#FFC107\" stroke=\"#F57C00\" stroke-width=\"1\"/>\n    <text x=\"35\" y=\"129\" font-family=\"Arial, sans-serif\" font-size=\"12\" fill=\"black\">Network Hub</text>\n  </g>\n"

/-- `SVGGenerator.generate`: lay the nodes out, then concatenate header,
title, connections layer, nodes layer, legend and footer.  `none` models an
exception escaping from the layout step. -/
noncomputable def generate (fstr : ℝ → String) (w h margin : ℤ)
    (st : ParserState) : Option String :=
  match layoutNodes w h margin st.nodes st.conns with
  | none => none
  | some ns =>
    some (createSvgHeader w h ++ createTitle fstr w st.labInfo
      ++ drawConnections fstr ns st.conns ++ drawNodes fstr ns
      ++ createLegend h ++ createSvgFooter)

/-- Read off a collision domain's membership list (first matching entry,
matching the get-or-create discipline of `addConnection`). -/
def connMembersOf (conns : List Conn) (d : String) : List (String × String) :=
  ((conns.find? (fun c => c.domain == d)).map (fun c => c.members)).getD []

/-- Occurrence is preserved by prepending a string. -/
theorem containsStr_appR (s t pat : String) (h : containsStr t pat) :
    containsStr (s ++ t) pat := by
  obtain ⟨a, b, rfl⟩ := h
  exact ⟨s ++ a, b, by rw [String.append_assoc]⟩

/-- Occurrence is preserved by appending a string. -/
theorem containsStr_appL (s t pat : String) (h : containsStr s pat) :
    containsStr (s ++ t) pat := by
  obtain ⟨a, b, rfl⟩ := h
  exact ⟨a, b ++ t, by simp [String.append_assoc]⟩

/-- Every string occurs in itself. -/
theorem containsStr_refl (pat : String) : containsStr pat pat :=
  ⟨"", "", by simp⟩

/-- Index lemma for the enumerate-map loop. -/
theorem enumMap_get? {α β : Type} (f : ℕ → α → β) :
    ∀ (l : List α) (k i : ℕ),
      (enumMap f k l).get? i = (l.get? i).map (fun a => f (k + i) a) := by
  intro l
  induction l with
  | nil => intro k i; simp [enumMap]
  | cons a rest ih =>
    intro k i
    cases i with
    | zero => simp [enumMap]
    | succ j =>
      have hk : k + 1 + j = k + (j + 1) := by omega
      simp only [enumMap, List.get?_cons_succ, ih (k + 1) j, hk]

/-- The classification cascade can only produce the four concrete types. -/
theorem classifyNodeType_cases (nm im : String) :
    classifyNodeType nm im = "router" ∨ classifyNodeType nm im = "pc" ∨
    classifyNodeType nm im = "server" ∨ classifyNodeType nm im = "switch" := by
  unfold classifyNodeType
  dsimp only
  split_ifs <;> simp

/-- Node classification only depends on the (unchanged) name and image. -/
theorem classifyNode_idem (nd : Node) :
    classifyNode (classifyNode nd) = classifyNode nd := rfl

/-- Connection classification only depends on the (unchanged) membership
list and node types; the sub-2-member case preserves the stored type. -/
theorem classifyConnection_idem (ns : List Node) (c : Conn) :
    classifyConnection ns (classifyConnection ns c) = classifyConnection ns c := by
  by_cases h2 : c.members.length = 2
  · simp [classifyConnection, h2]
  · by_cases h3 : 2 < c.members.length
    · by_cases hr : routerMemberCount ns c.members = 2 <;>
        simp [classifyConnection, h2, h3, hr]
    · simp [classifyConnection, h2, h3]

/-- Outside the `LAB_` branch, `_parse_line` can never raise: the node
pattern either matches or the line is silently ignored. -/
theorem parseLine_isSome_of_not_lab (st : ParserState) (line : String)
    (h : startsWithStr line "LAB_" = false) :
    (parseLine st line).isSome = true := by
  unfold parseLine
  rw [h]
  simp only [Bool.false_eq_true, if_false]
  cases matchNodeLine line with
  | none => rfl
  | some v => rfl

/-- C1 (counterexample): for the declaration `server1[bridged]="true"` the
classification pass assigns type `"router"`, not `"server"`: the name
`server1` contains the router-keyword substring `r1`, which the cascade
tests before the server keywords. -/
theorem c1_server1_classified_router :
    ((parseFile ["server1[bridged]=\"true\""]).map
      (fun st => st.nodes.map (fun nd => nd.nodeType)) = some ["router"]) ∧
    ¬ ((parseFile ["server1[bridged]=\"true\""]).map
      (fun st => st.nodes.map (fun nd => nd.nodeType)) = some ["server"]) := by
  decide

/-- C1 (amended): for a node whose name contains a server keyword but no
router token — here `servera` — and whose property mapping contains the key
`bridged`, classification assigns type `"server"`, and the rendered node
primitive's caption text includes the `(Bridged)` suffix. -/
theorem c1_amended_bridged_server :
    ((parseFile ["servera[bridged]=\"true\""]).map
      (fun st => st.nodes.map (fun nd => nd.nodeType)) = some ["server"]) ∧
    (∀ (fstr : ℝ → String) (nd : Node),
      (parseFile ["servera[bridged]=\"true\""]).map ParserState.nodes = some [nd] →
      containsStr (drawSingleNode fstr nd) "(Bridged)") := by
  constructor
  · decide
  · intro fstr nd h
    have h2 : some [Node.mk "servera" "" [] [("bridged", "true")] 0 0 "server"]
        = some [nd] := h
    have h3 : Node.mk "servera" "" [] [("bridged", "true")] 0 0 "server" = nd := by
      injection h2 with h2a
      injection h2a
    subst h3
    show containsStr (drawServer fstr
      (Node.mk "servera" "" [] [("bridged", "true")] 0 0 "server")) "(Bridged)"
    unfold drawServer
    dsimp only
    apply containsStr_appL
    apply containsStr_appR
    show containsStr " (Bridged)" "(Bridged)"
    exact ⟨" ", "", rfl⟩

/-- C1 (witness): the amended theorem evaluated on the parsed `servera`
node and a concrete float formatter. -/
theorem c1_amended_witness :
    (parseFile ["servera[bridged]=\"true\""]).map ParserState.nodes =
      some [Node.mk "servera" "" [] [("bridged", "true")] 0 0 "server"] ∧
    containsStr (drawSingleNode (fun _ => "")
      (Node.mk "servera" "" [] [("bridged", "true")] 0 0 "server")) "(Bridged)" :=
  ⟨rfl, c1_amended_bridged_server.2 (fun _ => "") _ rfl⟩

/-- C2: a configuration line that begins with the reserved prefix `LAB_`
but contains no `=` is not silently skipped: `_parse_line` unpacks
`line.split('=', 1)` into two variables, which raises `ValueError`, so the
whole parse fails (modelled as `none`) instead of continuing. -/
theorem c2_lab_line_without_eq_fails :
    parseFile ["LAB_DESCRIPTION"] = none := rfl

/-- C3: connection classification is exactly as specified — starting from
the default `"lan"` label, exactly 2 membership entries give `"p2p"`; more
than 2 give `"ring"` precisely when exactly 2 member entries are
router-typed and `"lan"` otherwise; fewer than 2 leave the default
`"lan"`. -/
theorem c3_connection_classification_cases (nodes : List Node) (c : Conn)
    (hlan : c.connType = "lan") :
    (c.members.length = 2 → (classifyConnection nodes c).connType = "p2p") ∧
    (2 < c.members.length →
      (classifyConnection nodes c).connType =
        (if routerMemberCount nodes c.members = 2 then "ring" else "lan")) ∧
    (c.members.length < 2 → (classifyConnection nodes c).connType = "lan") := by
  unfold classifyConnection
  refine ⟨?_, ?_, ?_⟩ <;> intro h
  · simp [h]
  · have h2 : ¬ c.members.length = 2 := by omega
    simp only [h2, if_false, h, if_true]
    split <;> simp
  · have h2 : ¬ c.members.length = 2 := by omega
    have h3 : ¬ 2 < c.members.length := by omega
    simp [h2, h3, hlan]

/-- C3 (witness): the membership-free connection keeps its `"lan"` label. -/
theorem c3_connection_classification_witness :
    ((Conn.mk "d" [] "lan").connType = "lan") ∧
    ((Conn.mk "d" [] "lan").members.length < 2 →
      (classifyConnection [] (Conn.mk "d" [] "lan")).connType = "lan") :=
  ⟨rfl, (c3_connection_classification_cases [] (Conn.mk "d" [] "lan") rfl).2.2⟩

/-- C4: ring-topology detection holds exactly when there are at least 3
router-typed nodes and at least that many connections with exactly 2
router-typed membership entries (this boolean is the layout engine's ring
dispatch condition in `layoutNodes`); in particular the three-router cycle
`r1-r2`, `r2-r3`, `r3-r1` is detected. -/
theorem c4_ring_detection_characterization :
    (∀ (nodes : List Node) (conns : List Conn),
      hasRingTopology (routersOf nodes) nodes conns = true ↔
        (3 ≤ (routersOf nodes).length ∧
          (routersOf nodes).length ≤ ringPairConnCount nodes conns)) ∧
    ((parseFile ["r1[0]=\"A\"", "r2[0]=\"A\"", "r2[1]=\"B\"", "r3[0]=\"B\"",
        "r3[1]=\"C\"", "r1[1]=\"C\""]).map
        (fun st => hasRingTopology (routersOf st.nodes) st.nodes st.conns) =
      some true) := by
  constructor
  · intro nodes conns
    unfold hasRingTopology
    split_ifs with hlt
    · simp only [Bool.false_eq_true, false_iff]
      intro hcontra
      omega
    · simp only [decide_eq_true_eq]
      omega
  · decide

/-- C5: in the ring layout with `N` routers, router `i` (0-based, in
router-iteration order) is placed on the circle of radius
`0.25 * min(width, height)` around the canvas center `(w/2, h/2)` at angle
`-90° + i * 360°/N` (in radians: `-π/2 + i * 2π/N`). -/
theorem c5_ring_router_position (w h : ℤ) (routers others : List Node)
    (conns : List Conn) (i : ℕ) (nd : Node)
    (hget : routers.get? i = some nd) :
    ((layoutRingTopology w h routers others conns).1).get? i =
      some { nd with
        x := (w : ℝ) / 2 + ((min w h : ℤ) : ℝ) * 0.25 *
          Real.cos (-(Real.pi / 2) + (i : ℝ) * (2 * Real.pi) / (routers.length : ℝ)),
        y := (h : ℝ) / 2 + ((min w h : ℤ) : ℝ) * 0.25 *
          Real.sin (-(Real.pi / 2) + (i : ℝ) * (2 * Real.pi) / (routers.length : ℝ)) } := by
  unfold layoutRingTopology
  dsimp only
  rw [enumMap_get?, hget]
  simp only [Option.map_some', Nat.zero_add]
  have hang : 2 * Real.pi * (i : ℝ) / (routers.length : ℝ) - Real.pi / 2
      = -(Real.pi / 2) + (i : ℝ) * (2 * Real.pi) / (routers.length : ℝ) := by
    ring
  rw [hang]

/-- C5 (witness): the second of three routers on the default canvas. -/
theorem c5_ring_router_position_witness :
    ((layoutRingTopology 1000 800 [mkNode "ra", mkNode "rb", mkNode "rc"] []
        []).1).get? 1 =
      some { (mkNode "rb") with
        x := ((1000 : ℤ) : ℝ) / 2 + ((min (1000 : ℤ) 800 : ℤ) : ℝ) * 0.25 *
          Real.cos (-(Real.pi / 2) + ((1 : ℕ) : ℝ) * (2 * Real.pi) /
            (([mkNode "ra", mkNode "rb", mkNode "rc"].length : ℕ) : ℝ)),
        y := ((800 : ℤ) : ℝ) / 2 + ((min (1000 : ℤ) 800 : ℤ) : ℝ) * 0.25 *
          Real.sin (-(Real.pi / 2) + ((1 : ℕ) : ℝ) * (2 * Real.pi) /
            (([mkNode "ra", mkNode "rb", mkNode "rc"].length : ℕ) : ℝ)) } := by
  exact c5_ring_router_position 1000 800 [mkNode "ra", mkNode "rb", mkNode "rc"]
    [] [] 1 (mkNode "rb") rfl

/-- C6: in the ring layout, a non-router node at index `k` whose first
node-and-router-sharing connection yields router `r` is placed on the ray
from the canvas center through `r`, 100 units beyond `r` (Euclidean
distance from `r` is 100, and the node's offset from the center is a
`t > 1` multiple of the router's); when `r` sits exactly at the center the
node goes 100 units above it (`y - 100`); with no connected router the node
falls back to `(cx + (count - k) * 50, cy + 200)`. -/
theorem c6_ring_nonrouter_placement (cx cy : ℝ) (rs : List Node)
    (conns : List Conn) (others : List Node) (k : ℕ) (nd : Node)
    (hget : others.get? k = some nd) :
    ∃ nd2 : Node, (layoutRingOthers cx cy rs conns others).get? k = some nd2 ∧
      (match findConnectedRouter nd.name rs conns with
       | some r =>
         ((r.x - cx) * (r.x - cx) + (r.y - cy) * (r.y - cy) ≠ 0 →
           Real.sqrt ((nd2.x - r.x) * (nd2.x - r.x) +
             (nd2.y - r.y) * (nd2.y - r.y)) = 100 ∧
           ∃ t : ℝ, 1 < t ∧ nd2.x - cx = t * (r.x - cx) ∧
             nd2.y - cy = t * (r.y - cy)) ∧
         (r.x = cx → r.y = cy → nd2.x = r.x ∧ nd2.y = r.y - 100)
       | none =>
         nd2.x = cx + ((others.length : ℝ) - (k : ℝ)) * 50 ∧
         nd2.y = cy + 200) := by
  unfold layoutRingOthers
  rw [enumMap_get?, hget]
  simp only [Option.map_some', Nat.zero_add]
  refine ⟨_, rfl, ?_⟩
  cases hfcr : findConnectedRouter nd.name rs conns with
  | none => simp [hfcr]
  | some r =>
    simp only [hfcr]
    constructor
    · intro hS
      have hSnn : 0 ≤ (r.x - cx) * (r.x - cx) + (r.y - cy) * (r.y - cy) :=
        add_nonneg (mul_self_nonneg _) (mul_self_nonneg _)
      have hpos : 0 < Real.sqrt ((r.x - cx) * (r.x - cx) + (r.y - cy) * (r.y - cy)) :=
        Real.sqrt_pos.mpr (lt_of_le_of_ne hSnn (Ne.symm hS))
      have hLne : Real.sqrt ((r.x - cx) * (r.x - cx) + (r.y - cy) * (r.y - cy)) ≠ 0 :=
        ne_of_gt hpos
      have hL2 : Real.sqrt ((r.x - cx) * (r.x - cx) + (r.y - cy) * (r.y - cy)) *
          Real.sqrt ((r.x - cx) * (r.x - cx) + (r.y - cy) * (r.y - cy)) =
          (r.x - cx) * (r.x - cx) + (r.y - cy) * (r.y - cy) :=
        Real.mul_self_sqrt hSnn
      simp only [if_pos hpos]
      constructor
      · have harg : (r.x + (r.x - cx) /
              Real.sqrt ((r.x - cx) * (r.x - cx) + (r.y - cy) * (r.y - cy)) * 100 - r.x) *
            (r.x + (r.x - cx) /
              Real.sqrt ((r.x - cx) * (r.x - cx) + (r.y - cy) * (r.y - cy)) * 100 - r.x) +
            (r.y + (r.y - cy) /
              Real.sqrt ((r.x - cx) * (r.x - cx) + (r.y - cy) * (r.y - cy)) * 100 - r.y) *
            (r.y + (r.y - cy) /
              Real.sqrt ((r.x - cx) * (r.x - cx) + (r.y - cy) * (r.y - cy)) * 100 - r.y) =
            100 * 100 := by
          field_simp
          ring
        rw [harg]
        exact Real.sqrt_mul_self (by norm_num)
      · refine ⟨1 + 100 / Real.sqrt ((r.x - cx) * (r.x - cx) + (r.y - cy) * (r.y - cy)),
          ?_, ?_, ?_⟩
        · have : (0 : ℝ) <
              100 / Real.sqrt ((r.x - cx) * (r.x - cx) + (r.y - cy) * (r.y - cy)) :=
            div_pos (by norm_num) hpos
          linarith
        · field_simp
          ring
        · field_simp
          ring
    · intro hx hy
      have hz : Real.sqrt ((r.x - cx) * (r.x - cx) + (r.y - cy) * (r.y - cy)) = 0 := by
        rw [hx, hy]
        simp
      rw [if_neg (by rw [hz]; exact lt_irrefl 0)]
      exact ⟨rfl, rfl⟩

/-- C6 (witness): a single non-router node with no routers takes the
staggered fallback position. -/
theorem c6_ring_nonrouter_placement_witness :
    ([mkNode "pcx"].get? 0 = some (mkNode "pcx")) ∧
    (∃ nd2 : Node, (layoutRingOthers 500 400 [] [] [mkNode "pcx"]).get? 0 = some nd2 ∧
      (match findConnectedRouter (mkNode "pcx").name [] [] with
       | some r =>
         ((r.x - 500) * (r.x - 500) + (r.y - 400) * (r.y - 400) ≠ 0 →
           Real.sqrt ((nd2.x - r.x) * (nd2.x - r.x) +
             (nd2.y - r.y) * (nd2.y - r.y)) = 100 ∧
           ∃ t : ℝ, 1 < t ∧ nd2.x - 500 = t * (r.x - 500) ∧
             nd2.y - 400 = t * (r.y - 400)) ∧
         (r.x = 500 → r.y = 400 → nd2.x = r.x ∧ nd2.y = r.y - 100)
       | none =>
         nd2.x = 500 + ((([mkNode "pcx"].length : ℕ) : ℝ) - ((0 : ℕ) : ℝ)) * 50 ∧
         nd2.y = 400 + 200)) := by
  constructor
  · rfl
  · exact c6_ring_nonrouter_placement 500 400 [] [] [mkNode "pcx"] 0 (mkNode "pcx") rfl

/-- C7: on empty input the pipeline raises no exception — the grid layout's
column count `ceil(sqrt(0)) = 0` is never used as a divisor because the
placement loop has nothing to iterate — and the generated document is the
title block (with the default placeholder strings), an empty connections
layer, an empty nodes layer, the legend block and the footer. -/
theorem c7_empty_input_pipeline :
    ceilSqrt 0 = 0 ∧
    layoutNodes 1000 800 50 [] [] = some [] ∧
    (∀ fstr : ℝ → String,
      generate fstr 1000 800 50 initState =
        some (createSvgHeader 1000 800 ++ createTitle fstr 1000 []
          ++ "\n  <!-- Connections -->\n" ++ "\n  <!-- Nodes -->\n"
          ++ createLegend 800 ++ "</svg>") ∧
      containsStr (createTitle fstr 1000 []) "Kathara Network" ∧
      containsStr (createTitle fstr 1000 []) "Network Topology" ∧
      containsStr (createLegend 800) "Legend:") := by
  refine ⟨rfl, rfl, fun fstr => ⟨rfl, ?_, ?_, ?_⟩⟩
  · unfold createTitle
    dsimp only [dictGet, Option.getD]
    apply containsStr_appL
    apply containsStr_appL
    apply containsStr_appL
    apply containsStr_appL
    apply containsStr_appL
    apply containsStr_appR
    exact containsStr_refl "Kathara Network"
  · unfold createTitle
    dsimp only [dictGet, Option.getD]
    apply containsStr_appL
    apply containsStr_appR
    exact containsStr_refl "Network Topology"
  · unfold createLegend
    dsimp only
    apply containsStr_appL
    apply containsStr_appR
    exact containsStr_refl "Legend:"

/-- C8: the classification pass is idempotent — re-running it on the
already-classified graph reproduces exactly the same node types and
connection types (indeed the same state). -/
theorem c8_classification_idempotent (st : ParserState) :
    classifyGraph (classifyGraph st) = classifyGraph st := by
  have hn : (st.nodes.map classifyNode).map classifyNode
      = st.nodes.map classifyNode := by
    rw [List.map_map]
    simp [Function.comp_def, classifyNode_idem]
  have hc : ((st.conns.map (classifyConnection (st.nodes.map classifyNode))).map
        (classifyConnection (st.nodes.map classifyNode)))
      = st.conns.map (classifyConnection (st.nodes.map classifyNode)) := by
    rw [List.map_map]
    simp [Function.comp_def, classifyConnection_idem]
  show ParserState.mk _ _ _ = ParserState.mk _ _ _
  simp only [classifyGraph, hn, hc]

/-- C9: collision-domain membership is appended once per interface
declaration with no deduplication — `addConnection` always appends the new
`(node, interface)` entry — so declaring the same node onto the same
domain via two interface indices, or via the same repeated line, yields a
2-member connection that classifies as `"p2p"`. -/
theorem c9_membership_appended_no_dedup :
    (∀ (conns : List Conn) (d n i : String),
      connMembersOf (addConnection d n i conns) d =
        connMembersOf conns d ++ [(n, i)]) ∧
    ((parseFile ["pc1[0]=\"A\"", "pc1[1]=\"A\""]).map (fun st => st.conns) =
      some [{ domain := "A", members := [("pc1", "0"), ("pc1", "1")],
              connType := "p2p" }]) ∧
    ((parseFile ["pc1[0]=\"A\"", "pc1[0]=\"A\""]).map (fun st => st.conns) =
      some [{ domain := "A", members := [("pc1", "0"), ("pc1", "0")],
              connType := "p2p" }]) := by
  refine ⟨?_, by decide, by decide⟩
  intro conns d n i
  induction conns with
  | nil => simp [addConnection, connMembersOf]
  | cons c rest ih =>
    by_cases hcd : c.domain = d
    · simp [addConnection, connMembersOf, hcd]
    · simp only [addConnection, hcd, if_false]
      simpa [connMembersOf, hcd] using ih

/-- C10: after the classification pass, every node's type is one of
router, pc, server, switch — the initial `"unknown"` never survives,
because the cascade's final fallback is `"pc"`. -/
theorem c10_classified_type_mem (st : ParserState) (i : ℕ)
    (h : i < (classifyGraph st).nodes.length) :
    (((classifyGraph st).nodes.get ⟨i, h⟩).nodeType) ∈
      (["router", "pc", "server", "switch"] : List String) := by
  have hg : (classifyGraph st).nodes = st.nodes.map classifyNode := rfl
  have h2 : i < (st.nodes.map classifyNode).length := by rw [← hg]; exact h
  have hget : (classifyGraph st).nodes.get ⟨i, h⟩
      = classifyNode (st.nodes.get ⟨i, by simpa using h2⟩) := by
    simp [hg, List.get_eq_getElem, List.getElem_map]
  rw [hget]
  have := classifyNodeType_cases (st.nodes.get ⟨i, by simpa using h2⟩).name
    (st.nodes.get ⟨i, by simpa using h2⟩).image
  simp [classifyNode]
  tauto

/-- C10 (witness): the classified singleton graph's node lands in the four
types. -/
theorem c10_classified_type_witness :
    (0 < (classifyGraph ⟨[], [Node.mk "a" "" [] [] 0 0 "unknown"], []⟩).nodes.length) ∧
    (((classifyGraph ⟨[], [Node.mk "a" "" [] [] 0 0 "unknown"], []⟩).nodes.get
        ⟨0, by decide⟩).nodeType ∈ (["router", "pc", "server", "switch"] : List String)) :=
  ⟨by decide, c10_classified_type_mem _ 0 (by decide)⟩
